import Mathlib

/-!
Verification of the valheim-server process-lifecycle coordinator
(src/server.py) against its natural-language specification.

The Python module is shallowly embedded: the mutable fields that
`ValheimServer.__post_init__` installs (`status`, `config`, `process`)
become an explicit state record, every coroutine becomes a pure function
from an environment (request body, persisted config, readiness-probe
outcome, pid assigned by the OS, worlds-directory snapshot) and a state
to a result, a successor state and a trace of process events.  Raised
exceptions become `Except.error` values of `PyError`.
-/

namespace ValheimSpec

/-- `ServerStatus` enum of src/server.py (lines 31-33). -/
inductive ServerStatus where
  | STOPPED
  | RUNNING
  deriving DecidableEq

/-- `ServerConfig` dataclass (lines 36-44) with its field defaults. -/
structure ServerConfig where
  name : String := "Valheim Server"
  password : String := "secret"
  port : Int := 27000
  world : String := "world"
  public : Int := 1
  deriving DecidableEq

/-- A JSON request body for `start`, restricted to the recognised config
fields: `start` (lines 86-88) looks up each dataclass field name in the
body and overrides only the fields that are present. -/
structure ConfigOverride where
  name : Option String := none
  password : Option String := none
  port : Option Int := none
  world : Option String := none
  public : Option Int := none
  deriving DecidableEq

/-- The field-override loop of `start` (lines 86-88): each field named in
the request body replaces the corresponding loaded-config field. -/
def applyOverride (c : ServerConfig) (o : ConfigOverride) : ServerConfig :=
  { name := o.name.getD c.name
    password := o.password.getD c.password
    port := o.port.getD c.port
    world := o.world.getD c.world
    public := o.public.getD c.public }

/-- `ServerConfig.load` (lines 46-55): returns the persisted config when
the config file exists, the defaulted config otherwise. -/
def ServerConfig.load (persisted : Option ServerConfig) : ServerConfig :=
  persisted.getD {}

/-- One entry of the recursive worlds-directory snapshot observed by
`glob("**/*")`: its path relative to the worlds directory and whether it
is a regular file (glob also yields directories). -/
structure FsEntry where
  relPath : String
  isFile : Bool
  deriving DecidableEq

/-- An entry handed to the zip streamer by `backup` (lines 163-168):
archive-relative name and source path. -/
structure ArchiveEntry where
  name : String
  file : String
  deriving DecidableEq

/-- Exceptions that the embedded code can raise. -/
inductive PyError where
  | httpConflict (msg : String)
  | runtimeError (msg : String)
  | attributeError (msg : String)
  deriving DecidableEq

/-- Observable process events of one operation: subprocess creation
(line 108), `terminate` (line 143), and the archive chunks written to
the HTTP stream (lines 170-172). -/
inductive Event where
  | spawn (pid : Nat)
  | terminate (pid : Nat)
  | stream (entries : List ArchiveEntry)
  deriving DecidableEq

/-- The `ValheimServer` dataclass (lines 63-74): the directory fields and
the mutable state installed by `__post_init__` (`status`, `config`,
`process`; the asyncio lock is modelled separately in the scheduler
section below). -/
structure ValheimServer where
  server_dir : String := "/home/valheim/server"
  worlds_dir : String := "/home/valheim/.config/unity3d/IronGate/Valheim/worlds"
  status : ServerStatus := ServerStatus.STOPPED
  config : Option ServerConfig := none
  process : Option Nat := none
  deriving DecidableEq

/-- External inputs of one operation: the request body (`none` models an
absent or JSON-invalid body, which line 83 maps to the empty dict), the
persisted config file, whether the UDP readiness probe succeeds within
the 120-second startup window, the pid of the next spawned subprocess,
and the worlds-directory snapshot. -/
structure Env where
  requestBody : Option ConfigOverride := none
  persistedConfig : Option ServerConfig := none
  ready : Bool := true
  newPid : Nat := 7
  fs : List FsEntry := []

/-- `STARTUP_TIMEOUT_SECS` (line 22). -/
def STARTUP_TIMEOUT_SECS : Nat := 120

/-- `stop_server` (lines 141-146): `self.process.terminate()` raises
AttributeError when the handle is `None`; otherwise the process is
terminated and awaited, status becomes STOPPED and config is cleared.
The process handle itself is NOT cleared by the source. -/
def stop_server (s : ValheimServer) :
    Except PyError Unit × ValheimServer × List Event :=
  match s.process with
  | none => (Except.error (PyError.attributeError "NoneType object has no attribute terminate"), s, [])
  | some pid =>
      (Except.ok (),
       { s with status := ServerStatus.STOPPED, config := none },
       [Event.terminate pid])

/-- `configure_server` (lines 97-103): dumps the config, projects it into
the environment, and records it in `self.config`. -/
def configure_server (cfg : ServerConfig) (s : ValheimServer) : ValheimServer :=
  { s with config := some cfg }

/-- `start_server` (lines 105-130): spawns the start script, then polls
`is_udp_port_open(self.config.port)` once per second until the deadline.
Reading `self.config.port` raises AttributeError when `self.config` is
`None` (the loop body always runs at least once).  If the probe never
succeeds, the just-spawned process is stopped via `stop_server` and a
RuntimeError is raised; on success status becomes RUNNING. -/
def start_server (env : Env) (s : ValheimServer) :
    Except PyError Unit × ValheimServer × List Event :=
  let s1 : ValheimServer := { s with process := some env.newPid }
  match s1.config with
  | none =>
      (Except.error (PyError.attributeError "NoneType object has no attribute port"),
       s1, [Event.spawn env.newPid])
  | some _ =>
      if env.ready then
        (Except.ok (), { s1 with status := ServerStatus.RUNNING }, [Event.spawn env.newPid])
      else
        match stop_server s1 with
        | (Except.error e, s2, ev2) => (Except.error e, s2, Event.spawn env.newPid :: ev2)
        | (Except.ok _, s2, ev2) =>
            (Except.error (PyError.runtimeError "Server did not start up within 120 seconds"),
             s2, Event.spawn env.newPid :: ev2)

/-- `start` (lines 76-95): rejects a RUNNING server with HTTP 409, parses
the body (an unparsable body becomes the empty dict), loads the persisted
config, applies the per-field overrides, records the projected config and
launches the server. -/
def start (env : Env) (s : ValheimServer) :
    Except PyError String × ValheimServer × List Event :=
  if s.status = ServerStatus.RUNNING then
    (Except.error (PyError.httpConflict "Server already running"), s, [])
  else
    let body := env.requestBody.getD {}
    let server_config := applyOverride (ServerConfig.load env.persistedConfig) body
    let s1 := configure_server server_config s
    match start_server env s1 with
    | (Except.error e, s2, ev) => (Except.error e, s2, ev)
    | (Except.ok _, s2, ev) => (Except.ok "Started server", s2, ev)

/-- `stop` (lines 132-139): rejects a STOPPED server with HTTP 409,
otherwise delegates to `stop_server`. -/
def stop (s : ValheimServer) :
    Except PyError String × ValheimServer × List Event :=
  if s.status = ServerStatus.STOPPED then
    (Except.error (PyError.httpConflict "Server already stopped"), s, [])
  else
    match stop_server s with
    | (Except.error e, s1, ev) => (Except.error e, s1, ev)
    | (Except.ok _, s1, ev) => (Except.ok "Server stopped", s1, ev)

/-- The file-enumeration loop of `backup` (lines 159-168): every entry
yielded by `glob("**/*")` (files and directories alike) is recorded with
its name relative to the worlds directory and its source path. -/
def backupEntries (worldsDir : String) (fs : List FsEntry) : List ArchiveEntry :=
  fs.map (fun e => { name := e.relPath, file := worldsDir ++ "/" ++ e.relPath })

/-- `backup` (lines 148-177): remembers whether the server was RUNNING,
stops it if so, streams the zip of the worlds-directory snapshot, and, if
it was RUNNING, calls `start_server` again to restore it. -/
def backup (env : Env) (s : ValheimServer) :
    Except PyError (List ArchiveEntry) × ValheimServer × List Event :=
  let was_running := s.status = ServerStatus.RUNNING
  if was_running then
    match stop_server s with
    | (Except.error e, s1, ev) => (Except.error e, s1, ev)
    | (Except.ok _, s1, ev) =>
        let entries := backupEntries s.worlds_dir env.fs
        match start_server env s1 with
        | (Except.error e, s2, ev2) =>
            (Except.error e, s2, ev ++ [Event.stream entries] ++ ev2)
        | (Except.ok _, s2, ev2) =>
            (Except.ok entries, s2, ev ++ [Event.stream entries] ++ ev2)
  else
    let entries := backupEntries s.worlds_dir env.fs
    (Except.ok entries, s, [Event.stream entries])

/-- Lexicographic code-point comparison of character lists, mirroring the
string order used by Python `sorted`. -/
def listCharLe : List Char → List Char → Bool
  | [], _ => true
  | _ :: _, [] => false
  | a :: as, b :: bs =>
    if a.toNat < b.toNat then true
    else if b.toNat < a.toNat then false
    else listCharLe as bs

/-- String comparison used to state the ascending order of `get_worlds`. -/
def strLe (a b : String) : Bool := listCharLe a.toList b.toList

/-- Last path component of a slash-separated relative path, as pathlib
`PurePath.name`. -/
def pyName (p : String) : String :=
  (p.toList.foldl (fun acc c => if c = '/' then [] else acc ++ [c]) []).asString

/-- Index of the last dot of a file name (pathlib uses `name.rfind`). -/
def pyDotIdx (cs : List Char) : Option Nat :=
  let r := cs.reverse.indexOf '.'
  if r < cs.length then some (cs.length - 1 - r) else none

/-- pathlib `PurePath.suffix` of a file name: the extension from the last
dot on, empty unless that dot is strictly inside the name. -/
def pySuffix (n : String) : String :=
  let cs := n.toList
  match pyDotIdx cs with
  | some i => if 0 < i ∧ i < cs.length - 1 then (cs.drop i).asString else ""
  | none => ""

/-- pathlib `PurePath.stem` of a file name: the name with `pySuffix`
stripped. -/
def pyStem (n : String) : String :=
  let cs := n.toList
  match pyDotIdx cs with
  | some i => if 0 < i ∧ i < cs.length - 1 then (cs.take i).asString else n
  | none => n

/-- `world_file_extensions` (line 191). -/
def worldFileExtensions : List String := [".fwl", ".db"]

/-- `get_worlds` (lines 188-195): every entry yielded by `glob("**/*")`
whose suffix is a world-file extension contributes its stem; the stems are
deduplicated (a Python set) and returned sorted ascending. -/
def get_worlds (fs : List FsEntry) : List String :=
  let world_names :=
    ((fs.filter (fun e => decide (pySuffix (pyName e.relPath) ∈ worldFileExtensions))).map
      (fun e => pyStem (pyName e.relPath))).dedup
  List.insertionSort (fun a b => strLe a b = true) world_names

/-- Modelled from the spec words of claim C7 ("exactly the set of files
present under the worlds directory"): the archive entries restricted to
regular files, for comparison with `backupEntries` which records every
glob entry. -/
def specBackupFiles (worldsDir : String) (fs : List FsEntry) : List ArchiveEntry :=
  (fs.filter (fun e => e.isFile)).map
    (fun e => { name := e.relPath, file := worldsDir ++ "/" ++ e.relPath })

/-- Modelled from the spec words of claim C8 ("base names of files whose
extension is one of the two world-file extensions"): the world inventory
restricted to regular files, for comparison with `get_worlds` which also
counts directories. -/
def specListWorlds (fs : List FsEntry) : List String :=
  List.insertionSort (fun a b => strLe a b = true)
    (((fs.filter (fun e =>
        e.isFile && decide (pySuffix (pyName e.relPath) ∈ worldFileExtensions))).map
      (fun e => pyStem (pyName e.relPath))).dedup)

/-- Response envelopes produced by the `json_responses` middleware
(lines 216-242). -/
inductive Envelope where
  | result (status : Nat) (body : String)
  | message (status : Nat) (body : String)
  | errorTrace (status : Nat)
  deriving DecidableEq

/-- The exception arm of `json_responses` (lines 232-242): an aiohttp
`HTTPException` (here: HTTPConflict, status 409) keeps its status and
message; every other exception becomes a generic HTTP 500 envelope
carrying only a traceback. -/
def errorEnvelope : PyError → Envelope
  | PyError.httpConflict m => Envelope.message 409 m
  | PyError.runtimeError _ => Envelope.errorTrace 500
  | PyError.attributeError _ => Envelope.errorTrace 500

/-- `update` (lines 179-186): stop when RUNNING, run the (empty) update
step, restart when it was RUNNING. -/
def update (env : Env) (s : ValheimServer) :
    Except PyError Unit × ValheimServer × List Event :=
  let was_running := s.status = ServerStatus.RUNNING
  if was_running then
    match stop_server s with
    | (Except.error e, s1, ev) => (Except.error e, s1, ev)
    | (Except.ok _, s1, ev) =>
        match start_server env s1 with
        | (Except.error e, s2, ev2) => (Except.error e, s2, ev ++ ev2)
        | (Except.ok _, s2, ev2) => (Except.ok (), s2, ev ++ ev2)
  else
    (Except.ok (), s, [])

/-!
Interleaving model of the lifecycle gate (`self.lock`, lines 70, 77, 133,
149, 180).  Each of the four handlers wraps its whole body in
`async with self.lock`, so its trace of scheduler-visible actions is an
`acquire`, the awaits and state touches of its body (`work` actions, one
list per possible control path, error paths included because `async with`
releases on exceptions), and a final `release`.  A scheduler state holds
the asyncio lock owner and the remaining trace of every concurrent task;
`Step` lets any task run its next action, with `acquire` enabled only when
the lock is free and `release` only for the owner, which is exactly the
semantics of `asyncio.Lock`.
-/

/-- Scheduler-visible actions of one lifecycle task. -/
inductive Action where
  | acquire
  | work
  | release
  deriving DecidableEq

/-- The trace shape `async with self.lock` compiles every handler body to:
acquire, `n` body steps, release. -/
def bracket (n : Nat) : List Action :=
  Action.acquire :: (List.replicate n Action.work ++ [Action.release])

/-- Control paths of `start` (lines 76-95). -/
inductive StartPath where
  | conflict
  | success (polls : Nat)
  | timeout (polls : Nat)

/-- Trace of `start`: the Conflict path raises after the status check; the
other paths parse the body, load and project the config, spawn, poll the
port `polls` times, and either mark RUNNING or tear the process down
before raising.  Each path ends by releasing the gate. -/
def startProg : StartPath → List Action
  | StartPath.conflict => bracket 1
  | StartPath.success polls => bracket (5 + polls)
  | StartPath.timeout polls => bracket (6 + polls)

/-- Control paths of `stop` (lines 132-139). -/
inductive StopPath where
  | conflict
  | ok

/-- Trace of `stop`: Conflict raises after the status check; otherwise the
process is terminated and awaited. -/
def stopProg : StopPath → List Action
  | StopPath.conflict => bracket 1
  | StopPath.ok => bracket 2

/-- Trace of `backup` (lines 148-177): optional stop, response
preparation and enumeration, `chunks` streamed zip chunks, optional
restart. -/
def backupProg (wasRunning : Bool) (chunks : Nat) : List Action :=
  bracket ((if wasRunning then 2 else 0) + 2 + chunks + (if wasRunning then 2 else 0))

/-- Trace of `update` (lines 179-186): optional stop, update step,
optional restart. -/
def updateProg (wasRunning : Bool) : List Action :=
  bracket (if wasRunning then 5 else 1)

/-- A trace of one of the four lifecycle operations. -/
def LifecycleProg (p : List Action) : Prop :=
  (∃ o, p = startProg o) ∨ (∃ o, p = stopProg o) ∨
    (∃ b n, p = backupProg b n) ∨ (∃ b, p = updateProg b)

/-- A scheduler state: the owner of the asyncio lock (if held) and the
remaining trace of every task. -/
structure Sched where
  lock : Option Nat
  tasks : Nat → List Action

/-- Interleaving semantics: any task may run its next action; `acquire`
requires the lock to be free and takes it, `release` requires ownership
and frees it, `work` is unconstrained. -/
inductive Step : Sched → Sched → Prop where
  | acq (s : Sched) (i : Nat) (rest : List Action) :
      s.tasks i = Action.acquire :: rest → s.lock = none →
      Step s { lock := some i, tasks := Function.update s.tasks i rest }
  | wrk (s : Sched) (i : Nat) (rest : List Action) :
      s.tasks i = Action.work :: rest →
      Step s { lock := s.lock, tasks := Function.update s.tasks i rest }
  | rel (s : Sched) (i : Nat) (rest : List Action) :
      s.tasks i = Action.release :: rest → s.lock = some i →
      Step s { lock := none, tasks := Function.update s.tasks i rest }

/-- Initial scheduler state: lock free, task `i` about to run the `i`-th
submitted operation (tasks beyond the list are idle). -/
def initSched (progs : List (List Action)) : Sched :=
  { lock := none, tasks := fun i => (progs[i]?).getD [] }

/-- Reachability under the interleaving semantics. -/
def Reach (progs : List (List Action)) (s : Sched) : Prop :=
  Relation.ReflTransGen Step (initSched progs) s

/-- A task is inside its gate-critical window when it has executed its
`acquire` but not yet its `release`. -/
def inCrit : List Action → Bool
  | [] => false
  | Action.acquire :: _ => false
  | Action.work :: _ => true
  | Action.release :: _ => true

/-- Traces of a task that currently holds the gate: some body steps
followed by the final release. -/
inductive MidProg : List Action → Prop where
  | last : MidProg [Action.release]
  | cons (rest : List Action) : MidProg rest → MidProg (Action.work :: rest)

/-- Every task trace is either not yet started, inside the gate, or
finished. -/
def TaskOK (r : List Action) : Prop :=
  (∃ rest, r = Action.acquire :: rest ∧ MidProg rest) ∨ MidProg r ∨ r = []

/-- Scheduler invariant: all task traces are well bracketed and any task
inside its critical window is the lock owner. -/
def SchedInv (s : Sched) : Prop :=
  (∀ i, TaskOK (s.tasks i)) ∧ (∀ i, inCrit (s.tasks i) = true → s.lock = some i)

/-- Sample concrete states and environments used by the witnesses. -/
def sampleConfig : ServerConfig := {}

/-- A freshly initialised coordinator (`__post_init__`). -/
def stoppedServer : ValheimServer := {}

/-- A coordinator with a healthy running server. -/
def runningServer : ValheimServer :=
  { status := ServerStatus.RUNNING, config := some sampleConfig, process := some 5 }

/-- A RUNNING status with no process handle (unreachable in healthy runs;
used to exhibit the stop-failure path of `backup`). -/
def brokenRunningServer : ValheimServer :=
  { status := ServerStatus.RUNNING, config := some sampleConfig, process := none }

/-- Default operation environment for the witnesses. -/
def defaultEnv : Env := {}

/-- Environment whose readiness probe never succeeds. -/
def timeoutEnv : Env := { ready := false }

/-- Worlds snapshot of the C8 spec example: files a.fwl, a.db, b.fwl,
c.db, c.txt. -/
def exampleFs : List FsEntry :=
  [ { relPath := "a.fwl", isFile := true }
  , { relPath := "a.db", isFile := true }
  , { relPath := "b.fwl", isFile := true }
  , { relPath := "c.db", isFile := true }
  , { relPath := "c.txt", isFile := true } ]

/-- Worlds snapshot containing a subdirectory next to a nested world
file. -/
def dirFs : List FsEntry :=
  [ { relPath := "sub", isFile := false }
  , { relPath := "sub/a.db", isFile := true } ]

/-- Worlds snapshot containing a directory whose name carries a
world-file extension. -/
def dirWorldFs : List FsEntry := [ { relPath := "d.db", isFile := false } ]

/-- Sample batch of concurrent lifecycle operations for the C1 witness. -/
def sampleProgs : List (List Action) :=
  [ startProg (StartPath.success 3), stopProg StopPath.conflict,
    backupProg true 2, updateProg false ]

/-- Process-handle invariant claimed by the spec, restricted to the RUNNING
side: while the status is RUNNING the handle is never null. -/
abbrev HandleInv (s : ValheimServer) : Prop :=
  s.status = ServerStatus.RUNNING → s.process ≠ none

/-! Helper lemmas about the four operations, shared by the claim
theorems below. -/

theorem start_stopped_ready (env : Env) (s : ValheimServer)
    (hstop : s.status = ServerStatus.STOPPED) (hready : env.ready = true) :
    start env s =
      (Except.ok "Started server",
       { s with status := ServerStatus.RUNNING,
                config := some (applyOverride (ServerConfig.load env.persistedConfig)
                  (env.requestBody.getD {})),
                process := some env.newPid },
       [Event.spawn env.newPid]) := by
  simp [start, configure_server, start_server, hstop, hready]

theorem start_stopped_timeout (env : Env) (s : ValheimServer)
    (hstop : s.status = ServerStatus.STOPPED) (hready : env.ready = false) :
    start env s =
      (Except.error (PyError.runtimeError "Server did not start up within 120 seconds"),
       { s with status := ServerStatus.STOPPED, config := none, process := some env.newPid },
       [Event.spawn env.newPid, Event.terminate env.newPid]) := by
  simp [start, configure_server, start_server, stop_server, hstop, hready]

theorem stop_running (s : ValheimServer) (pid : Nat)
    (hrun : s.status = ServerStatus.RUNNING) (hp : s.process = some pid) :
    stop s = (Except.ok "Server stopped",
      { s with status := ServerStatus.STOPPED, config := none }, [Event.terminate pid]) := by
  simp [stop, stop_server, hrun, hp]

theorem backup_stopped (env : Env) (s : ValheimServer)
    (hstop : s.status = ServerStatus.STOPPED) :
    backup env s = (Except.ok (backupEntries s.worlds_dir env.fs), s,
      [Event.stream (backupEntries s.worlds_dir env.fs)]) := by
  simp [backup, hstop]

theorem backup_running (env : Env) (s : ValheimServer) (pid : Nat)
    (hrun : s.status = ServerStatus.RUNNING) (hp : s.process = some pid) :
    backup env s =
      (Except.error (PyError.attributeError "NoneType object has no attribute port"),
       { s with status := ServerStatus.STOPPED, config := none, process := some env.newPid },
       [Event.terminate pid, Event.stream (backupEntries s.worlds_dir env.fs),
        Event.spawn env.newPid]) := by
  simp [backup, stop_server, start_server, hrun, hp]

theorem handleInv_start (env : Env) (s : ValheimServer) (h : HandleInv s) :
    HandleInv (start env s).2.1 := by
  cases hst : s.status with
  | RUNNING =>
      have heq : start env s =
          (Except.error (PyError.httpConflict "Server already running"), s, []) := by
        simp [start, hst]
      rw [heq]
      exact h
  | STOPPED =>
      cases hr : env.ready with
      | true =>
          rw [start_stopped_ready env s hst hr]
          exact fun _ => Option.some_ne_none env.newPid
      | false =>
          rw [start_stopped_timeout env s hst hr]
          exact fun hcon => ServerStatus.noConfusion hcon

theorem handleInv_stop (s : ValheimServer) (h : HandleInv s) :
    HandleInv (stop s).2.1 := by
  cases hst : s.status with
  | STOPPED =>
      have heq : stop s =
          (Except.error (PyError.httpConflict "Server already stopped"), s, []) := by
        simp [stop, hst]
      rw [heq]
      exact h
  | RUNNING =>
      cases hp : s.process with
      | none =>
          have heq : (stop s).2.1 = s := by simp [stop, stop_server, hst, hp]
          rw [heq]
          exact h
      | some pid =>
          rw [stop_running s pid hst hp]
          exact fun hcon => ServerStatus.noConfusion hcon

theorem handleInv_backup (env : Env) (s : ValheimServer) (h : HandleInv s) :
    HandleInv (backup env s).2.1 := by
  cases hst : s.status with
  | STOPPED =>
      rw [backup_stopped env s hst]
      exact h
  | RUNNING =>
      cases hp : s.process with
      | none =>
          have heq : (backup env s).2.1 = s := by simp [backup, stop_server, hst, hp]
          rw [heq]
          exact h
      | some pid =>
          rw [backup_running env s pid hst hp]
          exact fun hcon => ServerStatus.noConfusion hcon

theorem handleInv_update (env : Env) (s : ValheimServer) (h : HandleInv s) :
    HandleInv (update env s).2.1 := by
  cases hst : s.status with
  | STOPPED =>
      have heq : (update env s).2.1 = s := by simp [update, hst]
      rw [heq]
      exact h
  | RUNNING =>
      cases hp : s.process with
      | none =>
          have heq : (update env s).2.1 = s := by simp [update, stop_server, hst, hp]
          rw [heq]
          exact h
      | some pid =>
          have heq : (update env s).2.1 =
              { s with status := ServerStatus.STOPPED, config := none,
                       process := some env.newPid } := by
            simp [update, stop_server, start_server, hst, hp]
          rw [heq]
          exact fun hcon => ServerStatus.noConfusion hcon

/-! Claim theorems. -/

/-- Claim C2: calling `start` while the status is RUNNING fails with an
HTTP 409 Conflict, spawns no second process and leaves the state
unchanged; calling `stop` while the status is STOPPED fails with an HTTP
409 Conflict and leaves all process state (status, handle, config)
unchanged. -/
theorem start_stop_conflict (env : Env) (s : ValheimServer) :
    (s.status = ServerStatus.RUNNING →
      start env s = (Except.error (PyError.httpConflict "Server already running"), s, [])) ∧
    (s.status = ServerStatus.STOPPED →
      stop s = (Except.error (PyError.httpConflict "Server already stopped"), s, [])) := by
  refine ⟨fun h => ?_, fun h => ?_⟩
  · simp [start, h]
  · simp [stop, h]

theorem start_stop_conflict_witness :
    start defaultEnv runningServer =
      (Except.error (PyError.httpConflict "Server already running"), runningServer, []) ∧
    stop stoppedServer =
      (Except.error (PyError.httpConflict "Server already stopped"), stoppedServer, []) :=
  ⟨(start_stop_conflict defaultEnv runningServer).1 rfl,
   (start_stop_conflict defaultEnv stoppedServer).2 rfl⟩

/-- Claim C3: after every successful start (initial status STOPPED,
readiness reached), the status is RUNNING and the recorded config is
exactly the projected config: the persisted-or-default config with each
field named in the request body overridden by the request value, with no
partial application. -/
theorem start_success_records_projected_config (env : Env) (s : ValheimServer)
    (hstop : s.status = ServerStatus.STOPPED) (hready : env.ready = true) :
    (start env s).1 = Except.ok "Started server" ∧
    (start env s).2.1.status = ServerStatus.RUNNING ∧
    (start env s).2.1.config =
      some (applyOverride (ServerConfig.load env.persistedConfig) (env.requestBody.getD {})) ∧
    ∀ (c : ServerConfig) (o : ConfigOverride),
      applyOverride c o =
        { name := o.name.getD c.name, password := o.password.getD c.password,
          port := o.port.getD c.port, world := o.world.getD c.world,
          public := o.public.getD c.public } := by
  rw [start_stopped_ready env s hstop hready]
  exact ⟨rfl, rfl, rfl, fun c o => rfl⟩

theorem start_success_records_projected_config_witness :
    (start defaultEnv stoppedServer).1 = Except.ok "Started server" ∧
    (start defaultEnv stoppedServer).2.1.status = ServerStatus.RUNNING ∧
    (start defaultEnv stoppedServer).2.1.config =
      some (applyOverride (ServerConfig.load defaultEnv.persistedConfig)
        (defaultEnv.requestBody.getD {})) ∧
    ∀ (c : ServerConfig) (o : ConfigOverride),
      applyOverride c o =
        { name := o.name.getD c.name, password := o.password.getD c.password,
          port := o.port.getD c.port, world := o.world.getD c.world,
          public := o.public.getD c.public } :=
  start_success_records_projected_config defaultEnv stoppedServer rfl rfl

/-- Claim C4 counterexample: a start whose readiness probe never succeeds
raises the timeout RuntimeError and leaves status STOPPED, but the process
handle still references the terminated process instead of being cleared
(stop_server never resets self.process). -/
theorem start_timeout_handle_not_cleared :
    (start timeoutEnv stoppedServer).1 =
      Except.error (PyError.runtimeError "Server did not start up within 120 seconds") ∧
    (start timeoutEnv stoppedServer).2.1.status = ServerStatus.STOPPED ∧
    (start timeoutEnv stoppedServer).2.1.process = some 7 ∧
    (start timeoutEnv stoppedServer).2.1.process ≠ none := by
  refine ⟨rfl, rfl, rfl, ?_⟩
  decide

/-- Claim C4 (amended): when the readiness probe never succeeds within the
startup window, `start` terminates the just-launched process (the spawn is
matched by a terminate, so no running process leaks), fails with the
timeout RuntimeError, and leaves status STOPPED with the config cleared;
the process handle is NOT cleared and still references the terminated
process. -/
theorem start_timeout_teardown (env : Env) (s : ValheimServer)
    (hstop : s.status = ServerStatus.STOPPED) (hready : env.ready = false) :
    start env s =
      (Except.error (PyError.runtimeError "Server did not start up within 120 seconds"),
       { s with status := ServerStatus.STOPPED, config := none, process := some env.newPid },
       [Event.spawn env.newPid, Event.terminate env.newPid]) :=
  start_stopped_timeout env s hstop hready

theorem start_timeout_teardown_witness :
    start timeoutEnv stoppedServer =
      (Except.error (PyError.runtimeError "Server did not start up within 120 seconds"),
       { stoppedServer with status := ServerStatus.STOPPED, config := none, process := some 7 },
       [Event.spawn 7, Event.terminate 7]) :=
  start_timeout_teardown timeoutEnv stoppedServer rfl rfl

/-- Claim C5 counterexample: after a successful start followed by a
successful stop, the status is STOPPED yet the process handle still holds
the terminated process, refuting both handle always null while STOPPED
and every successful stop clears the handle. -/
theorem stop_leaves_handle_set :
    (stop (start defaultEnv stoppedServer).2.1).1 = Except.ok "Server stopped" ∧
    (stop (start defaultEnv stoppedServer).2.1).2.1.status = ServerStatus.STOPPED ∧
    (stop (start defaultEnv stoppedServer).2.1).2.1.process = some 7 ∧
    (stop (start defaultEnv stoppedServer).2.1).2.1.process ≠ none := by
  refine ⟨rfl, rfl, rfl, ?_⟩
  decide

/-- Claim C5 (amended): the handle is never null while the status is
RUNNING, and this invariant is preserved by every lifecycle operation; a
successful stop terminates the process, sets status STOPPED and clears the
config, but leaves the handle referencing the exited process, so the
handle is null while STOPPED only before the first start. -/
theorem stop_clears_config_not_handle (env : Env) (s : ValheimServer) (pid : Nat) :
    (s.status = ServerStatus.RUNNING → s.process = some pid →
      stop s = (Except.ok "Server stopped",
        { s with status := ServerStatus.STOPPED, config := none }, [Event.terminate pid])) ∧
    (HandleInv s → HandleInv (start env s).2.1 ∧ HandleInv (stop s).2.1 ∧
      HandleInv (backup env s).2.1 ∧ HandleInv (update env s).2.1) :=
  ⟨fun h1 h2 => stop_running s pid h1 h2,
   fun h => ⟨handleInv_start env s h, handleInv_stop s h,
             handleInv_backup env s h, handleInv_update env s h⟩⟩

theorem stop_clears_config_not_handle_witness :
    stop runningServer = (Except.ok "Server stopped",
      { runningServer with status := ServerStatus.STOPPED, config := none },
      [Event.terminate 5]) ∧
    (HandleInv (start defaultEnv runningServer).2.1 ∧
      HandleInv (stop runningServer).2.1 ∧
      HandleInv (backup defaultEnv runningServer).2.1 ∧
      HandleInv (update defaultEnv runningServer).2.1) :=
  ⟨(stop_clears_config_not_handle defaultEnv runningServer 5).1 rfl rfl,
   (stop_clears_config_not_handle defaultEnv runningServer 5).2
     (fun _ => Option.some_ne_none 5)⟩

/-- Claim C6 code bug: backing up a RUNNING server can never restore it.
stop_server clears self.config before the worlds snapshot, so the restart
in backup reads self.config.port from None and raises AttributeError: the
coordinator ends STOPPED, without the prior configuration, and the freshly
spawned process (pid 7) is never terminated.  The STOPPED branch of the
claim does hold: the backup succeeds and the state is untouched. -/
theorem backup_restart_always_crashes :
    backup defaultEnv runningServer =
      (Except.error (PyError.attributeError "NoneType object has no attribute port"),
       { runningServer with status := ServerStatus.STOPPED, config := none, process := some 7 },
       [Event.terminate 5, Event.stream [], Event.spawn 7]) ∧
    (backup defaultEnv stoppedServer).1 = Except.ok [] ∧
    (backup defaultEnv stoppedServer).2.1 = stoppedServer :=
  ⟨rfl, rfl, rfl⟩

/-- Claim C10: an absent or JSON-invalid start body (modelled as
`requestBody = none`, which line 83 maps to the empty dict) never fails
the start on account of the body: the run is identical to one with no
override fields supplied, the empty override leaves any config unchanged,
and on success the recorded config is the persisted-or-default config
unchanged. -/
theorem start_tolerates_invalid_body (env : Env) (s : ValheimServer) :
    start { env with requestBody := none } s = start { env with requestBody := some {} } s ∧
    (∀ c : ServerConfig, applyOverride c {} = c) ∧
    (s.status = ServerStatus.STOPPED → env.ready = true →
      (start { env with requestBody := none } s).2.1.config =
        some (ServerConfig.load env.persistedConfig)) := by
  refine ⟨rfl, fun c => rfl, fun hstop hready => ?_⟩
  rw [start_stopped_ready { env with requestBody := none } s hstop hready]
  rfl

theorem start_tolerates_invalid_body_witness :
    start { defaultEnv with requestBody := none } stoppedServer =
      start { defaultEnv with requestBody := some {} } stoppedServer ∧
    (∀ c : ServerConfig, applyOverride c {} = c) ∧
    (start { defaultEnv with requestBody := none } stoppedServer).2.1.config =
      some (ServerConfig.load defaultEnv.persistedConfig) := by
  have h := start_tolerates_invalid_body defaultEnv stoppedServer
  exact ⟨h.1, h.2.1, h.2.2 rfl rfl⟩

/-! Order facts about the string comparison used by `get_worlds`. -/

theorem listCharLe_total : ∀ as bs : List Char,
    listCharLe as bs = true ∨ listCharLe bs as = true := by
  intro as
  induction as with
  | nil => intro bs; left; rfl
  | cons a as2 ih =>
      intro bs
      cases bs with
      | nil => right; rfl
      | cons b bs2 =>
          by_cases h1 : a.toNat < b.toNat
          · left; simp [listCharLe, h1]
          · by_cases h2 : b.toNat < a.toNat
            · right; simp [listCharLe, h1, h2]
            · rcases ih bs2 with h | h
              · left; simp [listCharLe, h1, h2, h]
              · right; simp [listCharLe, h1, h2, h]

theorem listCharLe_trans : ∀ as bs cs : List Char,
    listCharLe as bs = true → listCharLe bs cs = true → listCharLe as cs = true := by
  intro as
  induction as with
  | nil => intro bs cs h1 h2; rfl
  | cons a as2 ih =>
      intro bs cs h1 h2
      cases bs with
      | nil => simp [listCharLe] at h1
      | cons b bs2 =>
          cases cs with
          | nil => simp [listCharLe] at h2
          | cons c cs2 =>
              simp only [listCharLe] at h1 h2 ⊢
              by_cases hab : a.toNat < b.toNat
              · by_cases hbc : b.toNat < c.toNat
                · simp [Nat.lt_trans hab hbc]
                · simp only [hbc, if_false] at h2
                  by_cases hcb : c.toNat < b.toNat
                  · simp [hcb] at h2
                  · have hac : a.toNat < c.toNat := by omega
                    simp [hac]
              · simp only [hab, if_false] at h1
                by_cases hba : b.toNat < a.toNat
                · simp [hba] at h1
                · have hab2 : a.toNat = b.toNat := by omega
                  by_cases hbc : b.toNat < c.toNat
                  · have hac : a.toNat < c.toNat := by omega
                    simp [hac]
                  · simp only [hbc, if_false] at h2
                    by_cases hcb : c.toNat < b.toNat
                    · simp [hcb] at h2
                    · have hac1 : ¬ a.toNat < c.toNat := by omega
                      have hac2 : ¬ c.toNat < a.toNat := by omega
                      simp only [hac1, hac2, if_false]
                      simp only [hba, if_false] at h1
                      simp only [hcb, if_false] at h2
                      exact ih bs2 cs2 h1 h2

instance : IsTotal String (fun a b => strLe a b = true) :=
  ⟨fun a b => listCharLe_total a.toList b.toList⟩

instance : IsTrans String (fun a b => strLe a b = true) :=
  ⟨fun a b c => listCharLe_trans a.toList b.toList c.toList⟩

/-- Claim C7 counterexample: `glob("**/*")` yields directories as well as
files, so with a subdirectory `sub` holding `sub/a.db` the archive records
an entry for the directory `sub` in addition to the file, while the claim
allows exactly the files. -/
theorem backup_archive_includes_directories :
    (backupEntries "w" dirFs).map ArchiveEntry.name = ["sub", "sub/a.db"] ∧
    (specBackupFiles "w" dirFs).map ArchiveEntry.name = ["sub/a.db"] ∧
    backupEntries "w" dirFs ≠ specBackupFiles "w" dirFs := by
  refine ⟨rfl, rfl, ?_⟩
  decide

/-- Claim C7 (amended): the produced archive contains exactly one entry
for every filesystem entry (file or directory) present under the worlds
directory at enumeration time, each recorded under its name relative to
the worlds directory and its full source path; a backup of a STOPPED
server returns exactly this archive. -/
theorem backup_archive_matches_snapshot (worldsDir : String) (fs : List FsEntry)
    (env : Env) (s : ValheimServer) :
    (backupEntries worldsDir fs).map ArchiveEntry.name = fs.map FsEntry.relPath ∧
    (backupEntries worldsDir fs).map ArchiveEntry.file =
      fs.map (fun e => worldsDir ++ "/" ++ e.relPath) ∧
    (s.status = ServerStatus.STOPPED →
      backup env s = (Except.ok (backupEntries s.worlds_dir env.fs), s,
        [Event.stream (backupEntries s.worlds_dir env.fs)])) := by
  refine ⟨?_, ?_, fun hstop => backup_stopped env s hstop⟩
  · simp [backupEntries]
  · simp [backupEntries]

theorem backup_archive_matches_snapshot_witness :
    (backupEntries "w" dirFs).map ArchiveEntry.name = dirFs.map FsEntry.relPath ∧
    (backupEntries "w" dirFs).map ArchiveEntry.file =
      dirFs.map (fun e => "w" ++ "/" ++ e.relPath) ∧
    backup defaultEnv stoppedServer =
      (Except.ok (backupEntries stoppedServer.worlds_dir defaultEnv.fs), stoppedServer,
       [Event.stream (backupEntries stoppedServer.worlds_dir defaultEnv.fs)]) := by
  have h := backup_archive_matches_snapshot "w" dirFs defaultEnv stoppedServer
  exact ⟨h.1, h.2.1, h.2.2 rfl⟩

/-- Claim C8 counterexample: `get_worlds` tests the suffix of every glob
entry, directories included, so a directory named `d.db` is reported as a
world even though no file with a world extension exists. -/
theorem get_worlds_counts_directories :
    get_worlds dirWorldFs = ["d"] ∧
    specListWorlds dirWorldFs = [] ∧
    get_worlds dirWorldFs ≠ specListWorlds dirWorldFs := by
  refine ⟨rfl, rfl, ?_⟩
  decide

/-- Claim C8 (amended): `get_worlds` returns the base names (extension
stripped) of the worlds-directory entries — files and directories alike —
whose extension is `.fwl` or `.db`, deduplicated and in ascending sorted
order; on files a.fwl, a.db, b.fwl, c.db, c.txt it returns exactly
["a", "b", "c"]. -/
theorem get_worlds_characterization (fs : List FsEntry) (x : String) :
    List.Sorted (fun a b => strLe a b = true) (get_worlds fs) ∧
    (get_worlds fs).Nodup ∧
    (x ∈ get_worlds fs ↔ ∃ e, e ∈ fs ∧
      pySuffix (pyName e.relPath) ∈ worldFileExtensions ∧ pyStem (pyName e.relPath) = x) ∧
    get_worlds exampleFs = ["a", "b", "c"] := by
  refine ⟨List.sorted_insertionSort _ _, ?_, ?_, rfl⟩
  · exact ((List.perm_insertionSort _ _).nodup_iff).mpr (List.nodup_dedup _)
  · simp only [get_worlds]
    rw [(List.perm_insertionSort _ _).mem_iff, List.mem_dedup]
    simp [List.mem_map, List.mem_filter, and_assoc]

/-- Claim C9 counterexample: a backup whose archive was fully streamed but
whose restart then failed surfaces exactly the same generic HTTP 500
envelope as a backup that failed before any content was produced; no
distinct RestartAfterBackupFailure exists anywhere in the code. -/
theorem restart_failure_not_distinct :
    (backup defaultEnv runningServer).1 =
      Except.error (PyError.attributeError "NoneType object has no attribute port") ∧
    Event.stream (backupEntries runningServer.worlds_dir defaultEnv.fs)
      ∈ (backup defaultEnv runningServer).2.2 ∧
    (backup defaultEnv brokenRunningServer).1 =
      Except.error (PyError.attributeError "NoneType object has no attribute terminate") ∧
    (backup defaultEnv brokenRunningServer).2.2 = [] ∧
    errorEnvelope (PyError.attributeError "NoneType object has no attribute port") =
      errorEnvelope (PyError.attributeError "NoneType object has no attribute terminate") ∧
    errorEnvelope (PyError.attributeError "NoneType object has no attribute port") =
      Envelope.errorTrace 500 := by
  refine ⟨rfl, ?_, rfl, rfl, rfl, rfl⟩
  decide

/-- Claim C9 (amended): when the server was RUNNING, backup always streams
the full archive and then fails to restart; the failure propagates through
the json_responses middleware as the same generic HTTP 500 traceback
envelope as any other internal error, with no distinct
RestartAfterBackupFailure error kind. -/
theorem restart_failure_generic_500 (env : Env) (s : ValheimServer) (pid : Nat)
    (hrun : s.status = ServerStatus.RUNNING) (hp : s.process = some pid) :
    (backup env s).1 =
      Except.error (PyError.attributeError "NoneType object has no attribute port") ∧
    (backup env s).2.2 =
      [Event.terminate pid, Event.stream (backupEntries s.worlds_dir env.fs),
       Event.spawn env.newPid] ∧
    errorEnvelope (PyError.attributeError "NoneType object has no attribute port") =
      Envelope.errorTrace 500 ∧
    errorEnvelope (PyError.runtimeError "Server did not start up within 120 seconds") =
      Envelope.errorTrace 500 := by
  rw [backup_running env s pid hrun hp]
  exact ⟨rfl, rfl, rfl, rfl⟩

theorem restart_failure_generic_500_witness :
    (backup defaultEnv runningServer).1 =
      Except.error (PyError.attributeError "NoneType object has no attribute port") ∧
    (backup defaultEnv runningServer).2.2 =
      [Event.terminate 5, Event.stream (backupEntries runningServer.worlds_dir defaultEnv.fs),
       Event.spawn 7] ∧
    errorEnvelope (PyError.attributeError "NoneType object has no attribute port") =
      Envelope.errorTrace 500 ∧
    errorEnvelope (PyError.runtimeError "Server did not start up within 120 seconds") =
      Envelope.errorTrace 500 :=
  restart_failure_generic_500 defaultEnv runningServer 5 rfl rfl

/-! Scheduler lemmas for the lifecycle-gate claim. -/

theorem midProg_bracket_tail (n : Nat) :
    MidProg (List.replicate n Action.work ++ [Action.release]) := by
  induction n with
  | zero => exact MidProg.last
  | succ n ih => exact MidProg.cons _ ih

theorem taskOK_bracket (n : Nat) : TaskOK (bracket n) :=
  Or.inl ⟨_, rfl, midProg_bracket_tail n⟩

theorem lifecycleProg_bracket (p : List Action) (h : LifecycleProg p) :
    ∃ n, p = bracket n := by
  rcases h with ⟨o, rfl⟩ | ⟨o, rfl⟩ | ⟨b, n, rfl⟩ | ⟨b, rfl⟩
  · cases o with
    | conflict => exact ⟨1, rfl⟩
    | success polls => exact ⟨5 + polls, rfl⟩
    | timeout polls => exact ⟨6 + polls, rfl⟩
  · cases o with
    | conflict => exact ⟨1, rfl⟩
    | ok => exact ⟨2, rfl⟩
  · exact ⟨(if b then 2 else 0) + 2 + n + (if b then 2 else 0), rfl⟩
  · exact ⟨if b then 5 else 1, rfl⟩

theorem inCrit_of_midProg (r : List Action) (h : MidProg r) : inCrit r = true := by
  cases h with
  | last => rfl
  | cons rest _ => rfl

theorem inCrit_bracket (n : Nat) : inCrit (bracket n) = false := rfl

theorem schedInv_init (progs : List (List Action))
    (hp : ∀ p ∈ progs, LifecycleProg p) : SchedInv (initSched progs) := by
  constructor
  · intro i
    show TaskOK ((progs[i]?).getD [])
    cases hg : progs[i]? with
    | none => exact Or.inr (Or.inr rfl)
    | some p =>
        have hmem : p ∈ progs := by
          rcases List.getElem?_eq_some.mp hg with ⟨hi, he⟩
          exact he ▸ List.getElem_mem hi
        rcases lifecycleProg_bracket p (hp p hmem) with ⟨n, rfl⟩
        exact taskOK_bracket n
  · intro i hc
    exfalso
    revert hc
    show ¬ inCrit ((progs[i]?).getD []) = true
    cases hg : progs[i]? with
    | none => intro hc; exact Bool.noConfusion hc
    | some p =>
        have hmem : p ∈ progs := by
          rcases List.getElem?_eq_some.mp hg with ⟨hi, he⟩
          exact he ▸ List.getElem_mem hi
        rcases lifecycleProg_bracket p (hp p hmem) with ⟨n, rfl⟩
        intro hc
        exact Bool.noConfusion hc

theorem schedInv_step (s s2 : Sched) (hinv : SchedInv s) (hstep : Step s s2) :
    SchedInv s2 := by
  rcases hinv with ⟨h1, h2⟩
  cases hstep with
  | acq i rest hta hlock =>
      have hmid : MidProg rest := by
        rcases h1 i with ⟨rest2, heq, hm⟩ | hm | hnil
        · rw [hta] at heq
          cases heq
          exact hm
        · rw [hta] at hm
          cases hm
        · rw [hta] at hnil
          exact List.noConfusion hnil
      constructor
      · intro j
        show TaskOK (Function.update s.tasks i rest j)
        by_cases hj : j = i
        · subst hj
          rw [Function.update_same]
          exact Or.inr (Or.inl hmid)
        · rw [Function.update_noteq hj]
          exact h1 j
      · intro j hc
        have hc2 : inCrit (Function.update s.tasks i rest j) = true := hc
        show some i = some j
        by_cases hj : j = i
        · rw [hj]
        · rw [Function.update_noteq hj] at hc2
          have hl := h2 j hc2
          rw [hlock] at hl
          exact Option.noConfusion hl
  | wrk i rest hta =>
      have hmid : MidProg rest := by
        rcases h1 i with ⟨rest2, heq, hm⟩ | hm | hnil
        · rw [hta] at heq
          exact Action.noConfusion (List.head_eq_of_cons_eq heq)
        · rw [hta] at hm
          cases hm with
          | cons rest3 hm3 => exact hm3
        · rw [hta] at hnil
          exact List.noConfusion hnil
      constructor
      · intro j
        show TaskOK (Function.update s.tasks i rest j)
        by_cases hj : j = i
        · subst hj
          rw [Function.update_same]
          exact Or.inr (Or.inl hmid)
        · rw [Function.update_noteq hj]
          exact h1 j
      · intro j hc
        have hc2 : inCrit (Function.update s.tasks i rest j) = true := hc
        show s.lock = some j
        by_cases hj : j = i
        · subst hj
          exact h2 j (by rw [hta]; rfl)
        · rw [Function.update_noteq hj] at hc2
          exact h2 j hc2
  | rel i rest hta hlock =>
      have hnil2 : rest = [] := by
        rcases h1 i with ⟨rest2, heq, hm⟩ | hm | hnil
        · rw [hta] at heq
          exact Action.noConfusion (List.head_eq_of_cons_eq heq)
        · rw [hta] at hm
          cases hm with
          | last => rfl
        · rw [hta] at hnil
          exact List.noConfusion hnil
      constructor
      · intro j
        show TaskOK (Function.update s.tasks i rest j)
        by_cases hj : j = i
        · subst hj
          rw [Function.update_same, hnil2]
          exact Or.inr (Or.inr rfl)
        · rw [Function.update_noteq hj]
          exact h1 j
      · intro j hc
        have hc2 : inCrit (Function.update s.tasks i rest j) = true := hc
        exfalso
        by_cases hj : j = i
        · rw [hj, Function.update_same, hnil2] at hc2
          exact Bool.noConfusion hc2
        · rw [Function.update_noteq hj] at hc2
          have hl := h2 j hc2
          rw [hlock] at hl
          exact hj (Option.some.inj hl).symm

theorem schedInv_reach (progs : List (List Action))
    (hp : ∀ p ∈ progs, LifecycleProg p) (s : Sched) (hs : Reach progs s) :
    SchedInv s := by
  induction hs with
  | refl => exact schedInv_init progs hp
  | tail hab hbc ih => exact schedInv_step _ _ ih hbc

/-- Claim C1: for every batch of concurrent start/stop/backup/update tasks
against one coordinator, in every state reachable under the asyncio-lock
interleaving semantics at most one task is inside the window between gate
acquisition and gate release, and every control path of every operation
(error paths included) begins by acquiring the gate and ends by releasing
it. -/
theorem lifecycle_gate_serializes (progs : List (List Action))
    (hp : ∀ p ∈ progs, LifecycleProg p) (s : Sched) (hs : Reach progs s) :
    (∀ i j : Nat, inCrit (s.tasks i) = true → inCrit (s.tasks j) = true → i = j) ∧
    (∀ p ∈ progs, p.head? = some Action.acquire ∧ p.getLast? = some Action.release) := by
  have hinv : SchedInv s := schedInv_reach progs hp s hs
  constructor
  · intro i j hi hj
    have ha := hinv.2 i hi
    have hb := hinv.2 j hj
    rw [ha] at hb
    exact Option.some.inj hb
  · intro p hmem
    rcases lifecycleProg_bracket p (hp p hmem) with ⟨n, rfl⟩
    constructor
    · rfl
    · show (Action.acquire :: (List.replicate n Action.work ++ [Action.release])).getLast?
        = some Action.release
      rw [← List.cons_append]
      exact List.getLast?_concat _

theorem lifecycle_gate_serializes_witness :
    (∀ i j : Nat, inCrit ((initSched sampleProgs).tasks i) = true →
      inCrit ((initSched sampleProgs).tasks j) = true → i = j) ∧
    (∀ p ∈ sampleProgs, p.head? = some Action.acquire ∧ p.getLast? = some Action.release) :=
  lifecycle_gate_serializes sampleProgs
    (by
      intro p hp
      simp only [sampleProgs, List.mem_cons, List.not_mem_nil, or_false] at hp
      rcases hp with h | h | h | h
      · exact Or.inl ⟨StartPath.success 3, h⟩
      · exact Or.inr (Or.inl ⟨StopPath.conflict, h⟩)
      · exact Or.inr (Or.inr (Or.inl ⟨true, 2, h⟩))
      · exact Or.inr (Or.inr (Or.inr ⟨false, h⟩)))
    (initSched sampleProgs) Relation.ReflTransGen.refl

end ValheimSpec
